import Mathlib

/-!
Verification of the request-construction layer of `server-client-python`
(`tableauserverclient/server/request_factory.py`).

The file is a shallow embedding of the source: Python's `xml.etree.ElementTree`
elements become the `Element` tree below, the entity objects become structures of
`Option`-typed fields (Python `None` is `none`), and each builder method of the
request-factory classes becomes a Lean function that constructs the same tree.
Python value formatting (`str(x)`, `.lower()`, truthiness, `or` on strings) is
modelled by the `py*` helpers, so that known Python quirks — such as
`str(None).lower() = "none"` being a truthy string — are preserved exactly.
Fallible builders (those that `raise`) return `Except String`; `warnings.warn`
calls are modelled by returning a list of warning messages alongside the result.
-/

/-! ## Python value formatting -/

/-- ASCII-wise `str.lower()`, written by structural recursion on the character
list so that it reduces inside the kernel. -/
def lowerChars : List Char → List Char
  | [] => []
  | c :: cs => Char.toLower c :: lowerChars cs

/-- Python `s.lower()` on a string. -/
def pyLower (s : String) : String := String.mk (lowerChars s.data)

/-- Python `str(b)` for a `bool`: `"True"` or `"False"` (capitalised). -/
def pyStrBool (b : Bool) : String := if b then "True" else "False"

/-- Python `str(x)` for an `Optional[bool]`: `"True"`, `"False"` or `"None"`. -/
def pyStrOptBool : Option Bool → String
  | some b => pyStrBool b
  | none => "None"

/-- Python `str(n)` for an `int`. -/
def pyStrInt (n : Int) : String := toString n

/-- Python `str(x)` for an `Optional[str]`: the string itself, or `"None"`. -/
def pyStrOptStr : Option String → String
  | some s => s
  | none => "None"

/-- Python `s or t` on strings: the first operand unless it is the empty string.
Note that every non-empty string — including `"none"`, `"False"` — is truthy. -/
def pyOr (s t : String) : String := if s = "" then t else s

/-- Python falsiness of an `Optional[str]` (`not x`): `None` and `""` are falsy. -/
def pyFalsy : Option String → Bool
  | some s => s == ""
  | none => true

/-! ## The element tree (`xml.etree.ElementTree`)

An element is a tag, an insertion-ordered attribute dictionary and an ordered
list of children.  `attrib[k] = v` keeps the position of an existing key and
overwrites its value, exactly like a Python `dict`. -/

inductive Element where
  | mk (tag : String) (attrib : List (String × String)) (children : List Element)

/-- Dictionary assignment on the attribute list: overwrite in place, else append. -/
def setAttrList : List (String × String) → String → String → List (String × String)
  | [], k, v => [(k, v)]
  | (k1, v1) :: rest, k, v =>
    if k1 = k then (k1, v) :: rest else (k1, v1) :: setAttrList rest k v

/-- Dictionary lookup on the attribute list. -/
def lookupAttr : List (String × String) → String → Option String
  | [], _ => none
  | (k1, v) :: rest, k => if k1 = k then some v else lookupAttr rest k

def Element.tag : Element → String
  | .mk t _ _ => t

def Element.attrib : Element → List (String × String)
  | .mk _ a _ => a

def Element.children : Element → List Element
  | .mk _ _ c => c

/-- Python `element.attrib[k] = v`. -/
def Element.setAttr : Element → String → String → Element
  | .mk t a c, k, v => .mk t (setAttrList a k v) c

/-- Attachment of a fully built child, modelling `ET.SubElement(parent, tag)`
followed by the child's population. -/
def Element.addChild : Element → Element → Element
  | .mk t a c, child => .mk t a (c ++ [child])

/-- Python `element.attrib.get(k)`: the rendered value of attribute `k`, if any. -/
def Element.getAttr (e : Element) (k : String) : Option String :=
  lookupAttr e.attrib k

/-! ## Serialization (`ET.tostring`) -/

/-- Escaping of one character inside an attribute value, as ElementTree's
attribute serializer performs it. -/
def escapeAttribChar (c : Char) : String :=
  if c = '&' then "&amp;"
  else if c = '<' then "&lt;"
  else if c = '>' then "&gt;"
  else if c = '\"' then "&quot;"
  else if c = '\r' then "&#13;"
  else if c = '\n' then "&#10;"
  else if c = '\t' then "&#09;"
  else String.mk [c]

def escapeChars : List Char → String
  | [] => ""
  | c :: cs => escapeAttribChar c ++ escapeChars cs

/-- XML attribute-value escaping. -/
def escapeAttrib (s : String) : String := escapeChars s.data

def renderAttrs : List (String × String) → String
  | [] => ""
  | (k, v) :: rest => " " ++ k ++ "=\"" ++ escapeAttrib v ++ "\"" ++ renderAttrs rest

/-- The canonical byte form of a tree, as `ET.tostring` produces it: a
self-closing tag for a childless element, otherwise an open/close pair
around the serialized children. -/
def serializeElem : Element → String
  | .mk tag attrib children =>
    match children with
    | [] => "<" ++ tag ++ renderAttrs attrib ++ " />"
    | cs =>
      "<" ++ tag ++ renderAttrs attrib ++ ">"
        ++ ((cs.attach.map fun c => serializeElem c.1).foldl (· ++ ·) "")
        ++ "</" ++ tag ++ ">"
termination_by e => sizeOf e
decreasing_by
  simp only [Element.mk.sizeOf_spec]
  have := List.sizeOf_lt_of_mem c.2
  omega

/-! ## Conditional attribute population

One combinator per Python idiom used by the builders, so that every
`if <presence test>: element.attrib[k] = <formatting>` line of the source maps
to exactly one combinator application. -/

/-- Python `if x: element.attrib[k] = x` for `x: Optional[str]` (truthiness). -/
def setIfTruthy (e : Element) (k : String) : Option String → Element
  | some s => if s = "" then e else e.setAttr k s
  | none => e

/-- Python `if x: element.attrib[k] = str(x)` for `x: Optional[int]` (0 is falsy). -/
def setIfTruthyInt (e : Element) (k : String) : Option Int → Element
  | some n => if n = 0 then e else e.setAttr k (pyStrInt n)
  | none => e

/-- Python `if x is not None: element.attrib[k] = str(x).lower()` for `Optional[bool]`. -/
def setIfSomeBoolLower (e : Element) (k : String) : Option Bool → Element
  | some b => e.setAttr k (pyLower (pyStrBool b))
  | none => e

/-- Python `if x is not None: element.attrib[k] = str(x)` for `Optional[bool]` —
note the missing `.lower()`: this renders `"True"`/`"False"`. -/
def setIfSomeBool (e : Element) (k : String) : Option Bool → Element
  | some b => e.setAttr k (pyStrBool b)
  | none => e

/-- Python `if x is not None: element.attrib[k] = str(x).lower()` for `Optional[str]`. -/
def setIfSomeStrLower (e : Element) (k : String) : Option String → Element
  | some s => e.setAttr k (pyLower s)
  | none => e

/-- Python `if x is not None: element.attrib[k] = str(x)` for `Optional[str]`. -/
def setIfSomeStr (e : Element) (k : String) : Option String → Element
  | some s => e.setAttr k s
  | none => e

/-- Python `if x is not None: element.attrib[k] = str(x).lower()` for `Optional[int]`. -/
def setIfSomeIntLower (e : Element) (k : String) : Option Int → Element
  | some n => e.setAttr k (pyLower (pyStrInt n))
  | none => e

/-- Python `if x is not None: element.attrib[k] = str(x)` for `Optional[int]`. -/
def setIfSomeInt (e : Element) (k : String) : Option Int → Element
  | some n => e.setAttr k (pyStrInt n)
  | none => e

/-- Python `if x: child = ET.SubElement(e, ...); <populate child from x>` for
`x: Optional[str]` (truthiness): conditional attachment of a sub-element built
from the field's value. -/
def addChildIfTruthy (e : Element) (v : Option String) (mkChild : String → Element) : Element :=
  match v with
  | some s => if s = "" then e else e.addChild (mkChild s)
  | none => e

/-- An attribute assignment whose right-hand side is the raw field without
`str(...)`.  The builders only reach serialization with these fields present
(ElementTree refuses to serialize a `None` attribute value), so the absent case
carries `""` in the model. -/
def attrStr (v : Option String) : String := v.getD ""

/-! ## Multipart encoding (`_add_multipart` and the urllib3 primitives) -/

/-- One part of a multipart message, as `RequestField(name, data, filename)`
made multipart with a content type. -/
structure RequestField where
  name : String
  filename : String
  data : String
  content_type : String

/-- Rendering of one part: boundary line, headers as
`RequestField.render_headers` emits them, blank line, payload, line break. -/
def renderPart (boundary : String) (p : RequestField) : String :=
  "--" ++ boundary ++ "\r\n"
    ++ "Content-Disposition: form-data; name=\"" ++ p.name ++ "\"; filename=\"" ++ p.filename ++ "\"\r\n"
    ++ "Content-Type: " ++ p.content_type ++ "\r\n\r\n"
    ++ p.data ++ "\r\n"

/-- The multipart body: each part in order, then the closing boundary. -/
def renderBody : List RequestField → String → String
  | [], boundary => "--" ++ boundary ++ "--" ++ "\r\n"
  | p :: rest, boundary => renderPart boundary p ++ renderBody rest boundary

/-- urllib3's `encode_multipart_formdata`: the body and a
`multipart/form-data; boundary=<boundary>` content type.  The boundary, a
freshly generated `uuid4().hex` in the source, is an explicit parameter here. -/
def encode_multipart_formdata (parts : List RequestField) (boundary : String) :
    String × String :=
  (renderBody parts boundary, "multipart/form-data; boundary=" ++ boundary)

/-- Split a character list at the first `';'`, keeping the separator with the tail. -/
def breakAtSemi : List Char → List Char × List Char
  | [] => ([], [])
  | c :: cs =>
    if c = ';' then ([], c :: cs)
    else
      let p := breakAtSemi cs
      (c :: p.1, p.2)

/-- Python `s.partition(";")`: the text before the first `';'`, the separator
(or `""` when absent) and the text after it. -/
def pyPartitionSemi (s : String) : String × String × String :=
  match breakAtSemi s.data with
  | (before, []) => (String.mk before, "", "")
  | (before, _ :: rest) => (String.mk before, ";", String.mk rest)

/-- The source's `_add_multipart`: encode the parts, then force the top-level
content type to `multipart/mixed` by re-joining
`("multipart/mixed",) + content_type.partition(";")[1:]`. -/
def _add_multipart (parts : List RequestField) (boundary : String) : String × String :=
  let p := encode_multipart_formdata parts boundary
  let q := pyPartitionSemi p.2
  (p.1, "multipart/mixed" ++ q.2.1 ++ q.2.2)

/-! ## Entity views

Read-only projections of the domain objects, with the `Option`-typing the
builders' presence tests (`is not None`, truthiness, `isinstance(x, str)`)
rely on.  `certified` flags are plain `Bool`s: modelled from the spec, the
entity defaults them through its own boolean default when unset. -/

structure ConnectionCredentials where
  name : Option String := none
  password : Option String := none
  embed : Bool := false
  oauth : Bool := false

structure ConnectionItem where
  server_address : Option String := none
  server_port : Option String := none
  connection_credentials : Option ConnectionCredentials := none
  username : Option String := none
  password : Option String := none
  embed_password : Option Bool := none

structure UserItem where
  name : Option String := none
  fullname : Option String := none
  email : Option String := none
  site_role : Option String := none
  auth_setting : Option String := none

structure GroupItem where
  name : Option String := none
  domain_name : Option String := none
  minimum_site_role : Option String := none
  license_mode : Option String := none

structure DatasourceItem where
  name : Option String := none
  description : Option String := none
  use_remote_query_agent : Option Bool := none
  ask_data_enablement : Option String := none
  project_id : Option String := none
  owner_id : Option String := none
  certified : Bool := false
  certification_note : Option String := none
  encrypt_extracts : Option Bool := none

structure DatabaseItem where
  contact_id : Option String := none
  certified : Bool := false
  certification_note : Option String := none
  description : Option String := none

structure WorkbookItem where
  name : Option String := none
  show_tabs : Bool := false
  project_id : Option String := none
  hidden_views : Option (List String) := none

structure DataAlertItem where
  subject : Option String := none
  frequency : Option String := none
  public : Option Bool := none
  owner_id : Option String := none

structure SiteItem where
  name : Option String := none
  content_url : Option String := none
  admin_mode : Option String := none
  user_quota : Option Int := none
  state : Option String := none
  storage_quota : Option Int := none
  disable_subscriptions : Option Bool := none
  subscribe_others_enabled : Option Bool := none
  revision_limit : Option Int := none
  revision_history_enabled : Option Bool := none
  data_acceleration_mode : Option String := none
  cataloging_enabled : Option Bool := none
  editing_flows_enabled : Option Bool := none
  scheduling_flows_enabled : Option Bool := none
  flows_enabled : Option Bool := none
  allow_subscription_attachments : Option Bool := none
  guest_access_enabled : Option Bool := none
  cache_warmup_enabled : Option Bool := none
  commenting_enabled : Option Bool := none
  extract_encryption_mode : Option String := none
  request_access_enabled : Option Bool := none
  run_now_enabled : Option Bool := none
  tier_creator_capacity : Option Int := none
  tier_explorer_capacity : Option Int := none
  tier_viewer_capacity : Option Int := none
  data_alerts_enabled : Option Bool := none
  commenting_mentions_enabled : Option Bool := none
  catalog_obfuscation_enabled : Option Bool := none
  flow_auto_save_enabled : Option Bool := none
  web_extraction_enabled : Option Bool := none
  metrics_content_type_enabled : Option Bool := none
  notify_site_admins_on_throttle : Option Bool := none
  authoring_enabled : Option Bool := none
  custom_subscription_email_enabled : Option Bool := none
  custom_subscription_email : Option String := none
  custom_subscription_footer_enabled : Option Bool := none
  custom_subscription_footer : Option String := none
  ask_data_mode : Option String := none
  named_sharing_enabled : Option Bool := none
  mobile_biometrics_enabled : Option Bool := none
  sheet_image_enabled : Option Bool := none
  derived_permissions_enabled : Option Bool := none
  user_visibility_mode : Option String := none
  use_default_time_zone : Option Bool := none
  time_zone : Option String := none
  auto_suspend_refresh_enabled : Option Bool := none
  auto_suspend_refresh_inactivity_window : Option Int := none

/-- Modelled from the spec: the server context is read-only at call time and
supplies one capability flag, which selects the new (split) flow-settings
scheme for site requests. -/
structure Server where
  new_flow_settings : Bool

/-- Modelled from the spec: `SiteItem.use_new_flow_settings(parent_srv)` reads
the server context's capability flag (the method body lives outside the
source file under verification). -/
def SiteItem.use_new_flow_settings (parent_srv : Server) : Bool :=
  parent_srv.new_flow_settings

/-- Modelled from the spec: the printed form of a user item, which the source
interpolates into its validation messages (`f"{user_item} ..."`); the item
class and its `repr` live outside the source file under verification. -/
def UserItem.pyRepr (_ : UserItem) : String := "UserItem"

/-! ## Shared sub-tree helpers -/

/-- The source's `_add_credentials_element`: validate name and password
(truthiness), then attach a `connectionCredentials` child. -/
def _add_credentials_element (parent_element : Element)
    (connection_credentials : ConnectionCredentials) : Except String Element :=
  if pyFalsy connection_credentials.password || pyFalsy connection_credentials.name then
    .error "Connection Credentials must have a name and password"
  else
    let credentials_element := (Element.mk "connectionCredentials" [] []).setAttr
      "name" (attrStr connection_credentials.name)
    let credentials_element := credentials_element.setAttr
      "password" (attrStr connection_credentials.password)
    let credentials_element := credentials_element.setAttr
      "embed" (if connection_credentials.embed then "true" else "false")
    let credentials_element :=
      if connection_credentials.oauth then credentials_element.setAttr "oAuth" "true"
      else credentials_element
    .ok (parent_element.addChild credentials_element)

/-- The source's `_add_connections_element`: validate the server address
(truthiness), then attach a `connection` child with its optional port and
optional embedded credentials. -/
def _add_connections_element (connections_element : Element)
    (connection : ConnectionItem) : Except String Element :=
  if pyFalsy connection.server_address then
    .error "Connection must have a server address"
  else
    let connection_element := (Element.mk "connection" [] []).setAttr
      "serverAddress" (attrStr connection.server_address)
    let connection_element := setIfTruthy connection_element "serverPort" connection.server_port
    match connection.connection_credentials with
    | some connection_credentials =>
      match _add_credentials_element connection_element connection_credentials with
      | .error e => .error e
      | .ok connection_element => .ok (connections_element.addChild connection_element)
    | none => .ok (connections_element.addChild connection_element)

/-- The source's `_add_hiddenview_element`: a `view` child with the name and a
fixed `hidden="true"`. -/
def _add_hiddenview_element (views_element : Element) (view_name : String) : Element :=
  views_element.addChild (Element.mk "view" [("name", view_name), ("hidden", "true")] [])

/-! ## DataAlertRequest -/

/-- The `dataAlert` element of `DataAlertRequest.update_req`. -/
def DataAlertRequest.update_alert_element (alert_item : DataAlertItem) : Element :=
  let dataAlert_element := Element.mk "dataAlert" [] []
  let dataAlert_element := setIfSomeStr dataAlert_element "subject" alert_item.subject
  let dataAlert_element := setIfSomeStrLower dataAlert_element "frequency" alert_item.frequency
  let dataAlert_element := setIfSomeBoolLower dataAlert_element "public" alert_item.public
  let owner := setIfSomeStr (Element.mk "owner" [] []) "id" alert_item.owner_id
  dataAlert_element.addChild owner

/-- The source's `DataAlertRequest.update_req` (serialized document). -/
def DataAlertRequest.update_req (alert_item : DataAlertItem) : String :=
  serializeElem (Element.mk "tsRequest" [] [DataAlertRequest.update_alert_element alert_item])

/-! ## DatabaseRequest -/

/-- The `database` element of `DatabaseRequest.update_req`. -/
def DatabaseRequest.update_database_element (database_item : DatabaseItem) : Element :=
  let database_element := Element.mk "database" [] []
  let database_element := addChildIfTruthy database_element database_item.contact_id
    (fun cid => Element.mk "contact" [("id", cid)] [])
  let database_element := database_element.setAttr
    "isCertified" (pyLower (pyStrBool database_item.certified))
  let database_element := setIfTruthy database_element
    "certificationNote" database_item.certification_note
  setIfTruthy database_element "description" database_item.description

/-- The source's `DatabaseRequest.update_req` (serialized document). -/
def DatabaseRequest.update_req (database_item : DatabaseItem) : String :=
  serializeElem (Element.mk "tsRequest" [] [DatabaseRequest.update_database_element database_item])

/-! ## DatasourceRequest -/

/-- The `datasource` element of `DatasourceRequest.update_req`. -/
def DatasourceRequest.update_datasource_element (datasource_item : DatasourceItem) : Element :=
  let datasource_element := Element.mk "datasource" [] []
  let datasource_element := setIfTruthy datasource_element "name" datasource_item.name
  let datasource_element := addChildIfTruthy datasource_element datasource_item.ask_data_enablement
    (fun s => Element.mk "askData" [("enablement", s)] [])
  let datasource_element := addChildIfTruthy datasource_element datasource_item.project_id
    (fun pid => Element.mk "project" [("id", pid)] [])
  let datasource_element := addChildIfTruthy datasource_element datasource_item.owner_id
    (fun oid => Element.mk "owner" [("id", oid)] [])
  let datasource_element := datasource_element.setAttr
    "isCertified" (pyLower (pyStrBool datasource_item.certified))
  let datasource_element := setIfTruthy datasource_element
    "certificationNote" datasource_item.certification_note
  setIfSomeBoolLower datasource_element "encryptExtracts" datasource_item.encrypt_extracts

/-- The source's `DatasourceRequest.update_req` (serialized document). -/
def DatasourceRequest.update_req (datasource_item : DatasourceItem) : String :=
  serializeElem (Element.mk "tsRequest" [] [DatasourceRequest.update_datasource_element datasource_item])

/-- The tree built by `DatasourceRequest._generate_xml`, before serialization. -/
def DatasourceRequest._generate_xml_tree (datasource_item : DatasourceItem)
    (connection_credentials : Option ConnectionCredentials)
    (connections : Option (List ConnectionItem)) : Except String Element :=
  let datasource_element := (Element.mk "datasource" [] []).setAttr
    "name" (attrStr datasource_item.name)
  let datasource_element := setIfTruthy datasource_element
    "description" datasource_item.description
  let datasource_element := setIfSomeBoolLower datasource_element
    "useRemoteQueryAgent" datasource_item.use_remote_query_agent
  let datasource_element := addChildIfTruthy datasource_element datasource_item.ask_data_enablement
    (fun s => Element.mk "askData" [("enablement", s)] [])
  let datasource_element := datasource_element.addChild
    (Element.mk "project" [("id", attrStr datasource_item.project_id)] [])
  if connection_credentials.isSome && connections.isSome then
    .error "You cannot set both `connections` and `connection_credentials`"
  else
    let step1 : Except String Element :=
      match connection_credentials with
      | some cc => _add_credentials_element datasource_element cc
      | none => .ok datasource_element
    match step1 with
    | .error e => .error e
    | .ok datasource_element =>
      let step2 : Except String Element :=
        match connections with
        | some conns =>
          match conns.foldlM _add_connections_element (Element.mk "connections" [] []) with
          | .error e => .error e
          | .ok connections_element => .ok (datasource_element.addChild connections_element)
        | none => .ok datasource_element
      match step2 with
      | .error e => .error e
      | .ok datasource_element => .ok (Element.mk "tsRequest" [] [datasource_element])

/-- The source's `DatasourceRequest._generate_xml` (serialized document). -/
def DatasourceRequest._generate_xml (datasource_item : DatasourceItem)
    (connection_credentials : Option ConnectionCredentials)
    (connections : Option (List ConnectionItem)) : Except String String :=
  (DatasourceRequest._generate_xml_tree datasource_item connection_credentials connections).map
    serializeElem

/-- The source's `DatasourceRequest.publish_req`: the metadata part named
`request_payload` with an empty filename, then the binary part. -/
def DatasourceRequest.publish_req (datasource_item : DatasourceItem)
    (filename : String) (file_contents : String)
    (connection_credentials : Option ConnectionCredentials)
    (connections : Option (List ConnectionItem))
    (boundary : String) : Except String (String × String) :=
  match DatasourceRequest._generate_xml datasource_item connection_credentials connections with
  | .error e => .error e
  | .ok xml_request =>
    let parts : List RequestField :=
      [{ name := "request_payload", filename := "", data := xml_request, content_type := "text/xml" },
       { name := "tableau_datasource", filename := filename, data := file_contents,
         content_type := "application/octet-stream" }]
    .ok (_add_multipart parts boundary)

/-! ## WorkbookRequest -/

/-- The tree and deprecation warnings built by `WorkbookRequest._generate_xml`,
before serialization.  A non-null `hidden_views` argument raises a deprecation
warning and is written back into the item's field when that field is unset. -/
def WorkbookRequest._generate_xml_tree (workbook_item : WorkbookItem)
    (connection_credentials : Option ConnectionCredentials)
    (connections : Option (List ConnectionItem))
    (hidden_views : Option (List String)) : Except String (Element × List String) :=
  let workbook_element := (Element.mk "workbook" [] []).setAttr
    "name" (attrStr workbook_item.name)
  let workbook_element :=
    if workbook_item.show_tabs then
      workbook_element.setAttr "showTabs" (pyLower (pyStrBool workbook_item.show_tabs))
    else workbook_element
  let workbook_element := workbook_element.addChild
    (Element.mk "project" [("id", pyStrOptStr workbook_item.project_id)] [])
  if connection_credentials.isSome && connections.isSome then
    .error "You cannot set both `connections` and `connection_credentials`"
  else
    let step1 : Except String Element :=
      match connection_credentials with
      | some cc => _add_credentials_element workbook_element cc
      | none => .ok workbook_element
    match step1 with
    | .error e => .error e
    | .ok workbook_element =>
      let step2 : Except String Element :=
        match connections with
        | some conns =>
          match conns.foldlM _add_connections_element (Element.mk "connections" [] []) with
          | .error e => .error e
          | .ok connections_element => .ok (workbook_element.addChild connections_element)
        | none => .ok workbook_element
      match step2 with
      | .error e => .error e
      | .ok workbook_element =>
        let warns : List String :=
          match hidden_views with
          | some _ => ["the hidden_views parameter should now be set on the workbook directly"]
          | none => []
        let workbook_item : WorkbookItem :=
          match hidden_views with
          | some hv =>
            if workbook_item.hidden_views = none then { workbook_item with hidden_views := some hv }
            else workbook_item
          | none => workbook_item
        let workbook_element :=
          match workbook_item.hidden_views with
          | some views =>
            workbook_element.addChild (views.foldl _add_hiddenview_element (Element.mk "views" [] []))
          | none => workbook_element
        .ok (Element.mk "tsRequest" [] [workbook_element], warns)

/-- The source's `WorkbookRequest._generate_xml` (serialized document, with the
deprecation warnings it raised). -/
def WorkbookRequest._generate_xml (workbook_item : WorkbookItem)
    (connection_credentials : Option ConnectionCredentials)
    (connections : Option (List ConnectionItem))
    (hidden_views : Option (List String)) : Except String (String × List String) :=
  (WorkbookRequest._generate_xml_tree workbook_item connection_credentials connections
    hidden_views).map (fun p => (serializeElem p.1, p.2))

/-- The source's `WorkbookRequest.publish_req`: the metadata part named
`request_payload` with an empty filename, then the binary part. -/
def WorkbookRequest.publish_req (workbook_item : WorkbookItem)
    (filename : String) (file_contents : String)
    (connection_credentials : Option ConnectionCredentials)
    (connections : Option (List ConnectionItem))
    (hidden_views : Option (List String))
    (boundary : String) : Except String ((String × String) × List String) :=
  match WorkbookRequest._generate_xml workbook_item connection_credentials connections hidden_views with
  | .error e => .error e
  | .ok (xml_request, warns) =>
    let parts : List RequestField :=
      [{ name := "request_payload", filename := "", data := xml_request, content_type := "text/xml" },
       { name := "tableau_workbook", filename := filename, data := file_contents,
         content_type := "application/octet-stream" }]
    .ok (_add_multipart parts boundary, warns)

/-! ## SiteRequest -/

/-- The source's `SiteRequest.set_versioned_flow_attributes`.  The three
`flows_*` arguments arrive already stringified and lowercased
(`str(field).lower()`), so an unset field arrives as the string `"none"`.
Under the new (split) scheme the split attributes are emitted only when the
corresponding split field is set; under the legacy scheme a single
`flowsEnabled` attribute is emitted.  The `or`-synthesis operates on the
stringified values. -/
def SiteRequest.set_versioned_flow_attributes (flows_all flows_edit flows_schedule : String)
    (parent_srv : Option Server) (site_element : Element) (site_item : SiteItem) :
    Element × List String :=
  if parent_srv.elim true SiteItem.use_new_flow_settings then
    let p : String × String × List String :=
      if site_item.flows_enabled.isSome then
        (pyOr flows_edit flows_all, pyOr flows_schedule flows_all,
          ["FlowsEnabled has been removed and become two options: SchedulingFlowsEnabled and EditingFlowsEnabled"])
      else (flows_edit, flows_schedule, [])
    let site_element :=
      if site_item.editing_flows_enabled.isSome then
        site_element.setAttr "editingFlowsEnabled" p.1
      else site_element
    let site_element :=
      if site_item.scheduling_flows_enabled.isSome then
        site_element.setAttr "schedulingFlowsEnabled" p.2.1
      else site_element
    (site_element, p.2.2)
  else
    let site_element :=
      if site_item.flows_enabled.isSome then
        site_element.setAttr "flowsEnabled" (pyLower (pyStrOptBool site_item.flows_enabled))
      else site_element
    if site_item.editing_flows_enabled.isSome || site_item.scheduling_flows_enabled.isSome then
      (site_element.setAttr "flowsEnabled" (pyOr (pyOr flows_all flows_edit) flows_schedule),
        ["In version 3.10 and earlier there is only one option: FlowsEnabled"])
    else (site_element, [])

/-- The `site` element of `SiteRequest.update_req`, with the warnings the flow
handling raised, in the source's attribute order. -/
def SiteRequest.update_site_element (site_item : SiteItem) (parent_srv : Option Server) :
    Element × List String :=
  let site_element := Element.mk "site" [] []
  let site_element := setIfTruthy site_element "name" site_item.name
  let site_element := setIfTruthy site_element "contentUrl" site_item.content_url
  let site_element := setIfTruthy site_element "adminMode" site_item.admin_mode
  let site_element := setIfTruthyInt site_element "userQuota" site_item.user_quota
  let site_element := setIfTruthy site_element "state" site_item.state
  let site_element := setIfTruthyInt site_element "storageQuota" site_item.storage_quota
  let site_element := setIfSomeBoolLower site_element "disableSubscriptions" site_item.disable_subscriptions
  let site_element := setIfSomeBoolLower site_element "subscribeOthersEnabled" site_item.subscribe_others_enabled
  let site_element := setIfTruthyInt site_element "revisionLimit" site_item.revision_limit
  let site_element := setIfSomeBoolLower site_element "revisionHistoryEnabled" site_item.revision_history_enabled
  let site_element := setIfSomeStrLower site_element "dataAccelerationMode" site_item.data_acceleration_mode
  let site_element := setIfSomeBoolLower site_element "catalogingEnabled" site_item.cataloging_enabled
  let flows_edit := pyLower (pyStrOptBool site_item.editing_flows_enabled)
  let flows_schedule := pyLower (pyStrOptBool site_item.scheduling_flows_enabled)
  let flows_all := pyLower (pyStrOptBool site_item.flows_enabled)
  let p := SiteRequest.set_versioned_flow_attributes flows_all flows_edit flows_schedule
    parent_srv site_element site_item
  let site_element := p.1
  let site_element := setIfSomeBoolLower site_element "allowSubscriptionAttachments" site_item.allow_subscription_attachments
  let site_element := setIfSomeBoolLower site_element "guestAccessEnabled" site_item.guest_access_enabled
  let site_element := setIfSomeBoolLower site_element "cacheWarmupEnabled" site_item.cache_warmup_enabled
  let site_element := setIfSomeBoolLower site_element "commentingEnabled" site_item.commenting_enabled
  let site_element := setIfSomeStrLower site_element "extractEncryptionMode" site_item.extract_encryption_mode
  let site_element := setIfSomeBoolLower site_element "requestAccessEnabled" site_item.request_access_enabled
  let site_element := setIfSomeBoolLower site_element "runNowEnabled" site_item.run_now_enabled
  let site_element := setIfSomeIntLower site_element "tierCreatorCapacity" site_item.tier_creator_capacity
  let site_element := setIfSomeIntLower site_element "tierExplorerCapacity" site_item.tier_explorer_capacity
  let site_element := setIfSomeIntLower site_element "tierViewerCapacity" site_item.tier_viewer_capacity
  let site_element := setIfSomeBool site_element "dataAlertsEnabled" site_item.data_alerts_enabled
  let site_element := setIfSomeBoolLower site_element "commentingMentionsEnabled" site_item.commenting_mentions_enabled
  let site_element := setIfSomeBoolLower site_element "catalogObfuscationEnabled" site_item.catalog_obfuscation_enabled
  let site_element := setIfSomeBoolLower site_element "flowAutoSaveEnabled" site_item.flow_auto_save_enabled
  let site_element := setIfSomeBoolLower site_element "webExtractionEnabled" site_item.web_extraction_enabled
  let site_element := setIfSomeBoolLower site_element "metricsContentTypeEnabled" site_item.metrics_content_type_enabled
  let site_element := setIfSomeBoolLower site_element "notifySiteAdminsOnThrottle" site_item.notify_site_admins_on_throttle
  let site_element := setIfSomeBoolLower site_element "authoringEnabled" site_item.authoring_enabled
  let site_element := setIfSomeBoolLower site_element "customSubscriptionEmailEnabled" site_item.custom_subscription_email_enabled
  let site_element := setIfSomeStrLower site_element "customSubscriptionEmail" site_item.custom_subscription_email
  let site_element := setIfSomeBoolLower site_element "customSubscriptionFooterEnabled" site_item.custom_subscription_footer_enabled
  let site_element := setIfSomeStrLower site_element "customSubscriptionFooter" site_item.custom_subscription_footer
  let site_element := setIfSomeStr site_element "askDataMode" site_item.ask_data_mode
  let site_element := setIfSomeBoolLower site_element "namedSharingEnabled" site_item.named_sharing_enabled
  let site_element := setIfSomeBoolLower site_element "mobileBiometricsEnabled" site_item.mobile_biometrics_enabled
  let site_element := setIfSomeBoolLower site_element "sheetImageEnabled" site_item.sheet_image_enabled
  let site_element := setIfSomeBoolLower site_element "derivedPermissionsEnabled" site_item.derived_permissions_enabled
  let site_element := setIfSomeStr site_element "userVisibilityMode" site_item.user_visibility_mode
  let site_element := setIfSomeBoolLower site_element "useDefaultTimeZone" site_item.use_default_time_zone
  let site_element := setIfSomeStr site_element "timeZone" site_item.time_zone
  let site_element := setIfSomeBoolLower site_element "autoSuspendRefreshEnabled" site_item.auto_suspend_refresh_enabled
  let site_element := setIfSomeInt site_element "autoSuspendRefreshInactivityWindow" site_item.auto_suspend_refresh_inactivity_window
  (site_element, p.2)

/-- The source's `SiteRequest.update_req` (serialized document, with the
warnings the flow handling raised). -/
def SiteRequest.update_req (site_item : SiteItem) (parent_srv : Option Server) :
    String × List String :=
  let p := SiteRequest.update_site_element site_item parent_srv
  (serializeElem (Element.mk "tsRequest" [] [p.1]), p.2)

/-! ## GroupRequest -/

/-- The tree and deprecation warnings built by `GroupRequest.update_req`.  A
non-null `default_site_role` argument raises a deprecation warning and is
written into the item's `minimum_site_role` field. -/
def GroupRequest.update_req_xml (group_item : GroupItem) (default_site_role : Option String) :
    Except String (Element × List String) :=
  let warns : List String :=
    match default_site_role with
    | some _ =>
      ["RequestFactory.Group.update_req(...default_site_role=\"\") is deprecated, please set the minimum_site_role field of GroupItem"]
    | none => []
  let group_item : GroupItem :=
    match default_site_role with
    | some r => { group_item with minimum_site_role := some r }
    | none => group_item
  match group_item.name with
  | none => .error "Group name must be populated"
  | some nm =>
    let group_element := (Element.mk "group" [] []).setAttr "name" nm
    match group_item.domain_name with
    | some dn =>
      if dn = "local" then
        .ok (Element.mk "tsRequest" []
          [setIfSomeStr group_element "minimumSiteRole" group_item.minimum_site_role], warns)
      else
        let import_element :=
          ((Element.mk "import" [] []).setAttr "source" "ActiveDirectory").setAttr "domainName" dn
        match group_item.minimum_site_role with
        | none => .error "Minimum site role must be provided."
        | some msr =>
          let import_element := import_element.setAttr "siteRole" msr
          let import_element := setIfSomeStr import_element "grantLicenseMode" group_item.license_mode
          .ok (Element.mk "tsRequest" [] [group_element.addChild import_element], warns)
    | none =>
      .ok (Element.mk "tsRequest" []
        [setIfSomeStr group_element "minimumSiteRole" group_item.minimum_site_role], warns)

/-- The source's `GroupRequest.update_req` (serialized document, with the
deprecation warnings it raised). -/
def GroupRequest.update_req (group_item : GroupItem) (default_site_role : Option String) :
    Except String (String × List String) :=
  (GroupRequest.update_req_xml group_item default_site_role).map
    (fun p => (serializeElem p.1, p.2))

/-! ## UserRequest -/

/-- The `user` element of `UserRequest.update_req`: a `siteRole` attribute is
rendered only for a truthy role different from `"ServerAdministrator"`. -/
def UserRequest.update_user_element (user_item : UserItem) (password : Option String) : Element :=
  let user_element := Element.mk "user" [] []
  let user_element := setIfTruthy user_element "fullName" user_item.fullname
  let user_element := setIfTruthy user_element "email" user_item.email
  let user_element :=
    match user_item.site_role with
    | some r =>
      if r = "" then user_element
      else if r = "ServerAdministrator" then user_element
      else user_element.setAttr "siteRole" r
    | none => user_element
  let user_element := setIfTruthy user_element "authSetting" user_item.auth_setting
  setIfTruthy user_element "password" password

/-- The source's `UserRequest.update_req` (serialized document). -/
def UserRequest.update_req (user_item : UserItem) (password : Option String) : String :=
  serializeElem (Element.mk "tsRequest" [] [UserRequest.update_user_element user_item password])

/-- The `user` element of `UserRequest.add_req`, validating that name and site
role are present (`isinstance(x, str)`). -/
def UserRequest.add_user_element (user_item : UserItem) : Except String Element :=
  match user_item.name with
  | none => .error (user_item.pyRepr ++ " missing name.")
  | some nm =>
    let user_element := (Element.mk "user" [] []).setAttr "name" nm
    match user_item.site_role with
    | none => .error (user_item.pyRepr ++ " must have site role populated.")
    | some r =>
      let user_element := user_element.setAttr "siteRole" r
      .ok (setIfTruthy user_element "authSetting" user_item.auth_setting)

/-- The source's `UserRequest.add_req` (serialized document). -/
def UserRequest.add_req (user_item : UserItem) : Except String String :=
  (UserRequest.add_user_element user_item).map
    (fun e => serializeElem (Element.mk "tsRequest" [] [e]))

/-! ## Connection (the `Connection` request class) -/

/-- The `connection` element of `Connection.update_req`: the server address is
lowercased, the other string fields are copied as-is. -/
def Connection.update_connection_element (connection_item : ConnectionItem) : Element :=
  let connection_element := Element.mk "connection" [] []
  let connection_element := setIfSomeStrLower connection_element "serverAddress" connection_item.server_address
  let connection_element := setIfSomeStr connection_element "serverPort" connection_item.server_port
  let connection_element := setIfSomeStr connection_element "userName" connection_item.username
  let connection_element := setIfSomeStr connection_element "password" connection_item.password
  setIfSomeBoolLower connection_element "embedPassword" connection_item.embed_password

/-- The source's `Connection.update_req` (serialized document, via the
`_tsrequest_wrapped` decorator). -/
def Connection.update_req (connection_item : ConnectionItem) : String :=
  serializeElem (Element.mk "tsRequest" []
    [Connection.update_connection_element connection_item])

/-! ## Attribute-lookup lemmas -/

theorem lookupAttr_setAttrList (l : List (String × String)) (k v k' : String) :
    lookupAttr (setAttrList l k v) k' = if k = k' then some v else lookupAttr l k' := by
  induction l with
  | nil => simp [setAttrList, lookupAttr]
  | cons a rest ih =>
    obtain ⟨k1, v1⟩ := a
    by_cases h1 : k1 = k
    · subst h1
      by_cases h2 : k1 = k' <;> simp [setAttrList, lookupAttr, h2]
    · by_cases h2 : k1 = k'
      · subst h2
        simp [setAttrList, lookupAttr, h1, Ne.symm h1]
      · simp [setAttrList, lookupAttr, h1, h2, ih]

theorem getAttr_setAttr (e : Element) (k v k' : String) :
    (e.setAttr k v).getAttr k' = if k = k' then some v else e.getAttr k' := by
  cases e
  simp [Element.setAttr, Element.getAttr, Element.attrib, lookupAttr_setAttrList]

theorem getAttr_addChild (e c : Element) (k : String) :
    (e.addChild c).getAttr k = e.getAttr k := by
  cases e; rfl

theorem getAttr_setIfTruthy_ne (e : Element) (k : String) (v : Option String) (k' : String)
    (h : ¬ k = k') : (setIfTruthy e k v).getAttr k' = e.getAttr k' := by
  cases v with
  | none => rfl
  | some s => by_cases hs : s = "" <;> simp [setIfTruthy, hs, getAttr_setAttr, h]

theorem getAttr_setIfTruthyInt_ne (e : Element) (k : String) (v : Option Int) (k' : String)
    (h : ¬ k = k') : (setIfTruthyInt e k v).getAttr k' = e.getAttr k' := by
  cases v with
  | none => rfl
  | some n => by_cases hn : n = 0 <;> simp [setIfTruthyInt, hn, getAttr_setAttr, h]

theorem getAttr_setIfSomeBoolLower_ne (e : Element) (k : String) (v : Option Bool) (k' : String)
    (h : ¬ k = k') : (setIfSomeBoolLower e k v).getAttr k' = e.getAttr k' := by
  cases v with
  | none => rfl
  | some b => simp [setIfSomeBoolLower, getAttr_setAttr, h]

theorem getAttr_setIfSomeBool_ne (e : Element) (k : String) (v : Option Bool) (k' : String)
    (h : ¬ k = k') : (setIfSomeBool e k v).getAttr k' = e.getAttr k' := by
  cases v with
  | none => rfl
  | some b => simp [setIfSomeBool, getAttr_setAttr, h]

theorem getAttr_setIfSomeStrLower_ne (e : Element) (k : String) (v : Option String) (k' : String)
    (h : ¬ k = k') : (setIfSomeStrLower e k v).getAttr k' = e.getAttr k' := by
  cases v with
  | none => rfl
  | some s => simp [setIfSomeStrLower, getAttr_setAttr, h]

theorem getAttr_setIfSomeStr_ne (e : Element) (k : String) (v : Option String) (k' : String)
    (h : ¬ k = k') : (setIfSomeStr e k v).getAttr k' = e.getAttr k' := by
  cases v with
  | none => rfl
  | some s => simp [setIfSomeStr, getAttr_setAttr, h]

theorem getAttr_setIfSomeIntLower_ne (e : Element) (k : String) (v : Option Int) (k' : String)
    (h : ¬ k = k') : (setIfSomeIntLower e k v).getAttr k' = e.getAttr k' := by
  cases v with
  | none => rfl
  | some n => simp [setIfSomeIntLower, getAttr_setAttr, h]

theorem getAttr_setIfSomeInt_ne (e : Element) (k : String) (v : Option Int) (k' : String)
    (h : ¬ k = k') : (setIfSomeInt e k v).getAttr k' = e.getAttr k' := by
  cases v with
  | none => rfl
  | some n => simp [setIfSomeInt, getAttr_setAttr, h]

theorem getAttr_addChildIfTruthy (e : Element) (v : Option String) (f : String → Element)
    (k : String) : (addChildIfTruthy e v f).getAttr k = e.getAttr k := by
  cases v with
  | none => rfl
  | some s => by_cases hs : s = "" <;> simp [addChildIfTruthy, hs, getAttr_addChild]

theorem setIfTruthy_none (e : Element) (k : String) : setIfTruthy e k none = e := rfl

theorem setIfTruthy_some (e : Element) (k s : String) :
    setIfTruthy e k (some s) = if s = "" then e else e.setAttr k s := rfl

theorem setIfSomeStr_none (e : Element) (k : String) : setIfSomeStr e k none = e := rfl

theorem setIfSomeStr_some (e : Element) (k s : String) :
    setIfSomeStr e k (some s) = e.setAttr k s := rfl

theorem setIfSomeStrLower_none (e : Element) (k : String) : setIfSomeStrLower e k none = e := rfl

theorem setIfSomeStrLower_some (e : Element) (k s : String) :
    setIfSomeStrLower e k (some s) = e.setAttr k (pyLower s) := rfl

theorem setIfSomeBoolLower_none (e : Element) (k : String) : setIfSomeBoolLower e k none = e := rfl

theorem setIfSomeBoolLower_some (e : Element) (k : String) (b : Bool) :
    setIfSomeBoolLower e k (some b) = e.setAttr k (pyLower (pyStrBool b)) := rfl

theorem getAttr_base (t : String) (k : String) : (Element.mk t [] []).getAttr k = none := rfl

/-- Python's lowercasing of a stringified boolean. -/
theorem pyLower_pyStrBool (b : Bool) :
    pyLower (pyStrBool b) = if b then "true" else "false" := by
  cases b <;> rfl

/-- The `set_versioned_flow_attributes` call touches no attribute other than
the three flow keys. -/
theorem getAttr_svfa_ne (flows_all flows_edit flows_schedule : String)
    (parent_srv : Option Server) (e : Element) (si : SiteItem) (k : String)
    (h1 : ¬ k = "flowsEnabled") (h2 : ¬ k = "editingFlowsEnabled")
    (h3 : ¬ k = "schedulingFlowsEnabled") :
    (SiteRequest.set_versioned_flow_attributes flows_all flows_edit flows_schedule
      parent_srv e si).1.getAttr k = e.getAttr k := by
  unfold SiteRequest.set_versioned_flow_attributes
  cases hn : parent_srv.elim true SiteItem.use_new_flow_settings with
  | true =>
    cases he : si.editing_flows_enabled.isSome <;>
      cases hs : si.scheduling_flows_enabled.isSome <;>
        simp [hn, he, hs, getAttr_setAttr, Ne.symm h2, Ne.symm h3]
  | false =>
    cases hf : si.flows_enabled.isSome <;>
      cases hes : (si.editing_flows_enabled.isSome || si.scheduling_flows_enabled.isSome) <;>
        simp [hn, hf, hes, getAttr_setAttr, Ne.symm h1]

/-- Folding the hidden-view helper over a list of view names appends one
`view` child per name, in order. -/
theorem foldl_hiddenview (vs : List String) (t : String) (a : List (String × String))
    (c : List Element) :
    vs.foldl _add_hiddenview_element (Element.mk t a c) =
      Element.mk t a (c ++ vs.map fun v => Element.mk "view" [("name", v), ("hidden", "true")] []) := by
  induction vs generalizing c with
  | nil => simp
  | cons v rest ih =>
    simp only [List.foldl_cons, _add_hiddenview_element, Element.addChild, List.map_cons]
    rw [ih]
    simp

/-! ## Claim theorems -/

/-- Claim C2: for every data-source or workbook publish/update build call, if
both a connections list and a connection-credentials descriptor are supplied
(both non-null), the call fails with the validation error identifying the
conflict before any payload is produced, whatever the remaining inputs. -/
theorem conflict_connections_credentials (d : DatasourceItem) (w : WorkbookItem)
    (cc : ConnectionCredentials) (conns : List ConnectionItem) (hv : Option (List String)) :
    DatasourceRequest._generate_xml d (some cc) (some conns) =
      .error "You cannot set both `connections` and `connection_credentials`" ∧
    WorkbookRequest._generate_xml w (some cc) (some conns) hv =
      .error "You cannot set both `connections` and `connection_credentials`" :=
  ⟨rfl, rfl⟩

/-- Claim C3: a build call with a required field missing fails with a
validation error naming that field: a user-add without a name, a user-add
without a site role, a connection without a server address, and a credentials
descriptor missing its name or password. -/
theorem required_field_validation (u u2 : UserItem) (e1 e2 : Element)
    (c : ConnectionItem) (cr : ConnectionCredentials) :
    (u.name = none → UserRequest.add_req u = .error (u.pyRepr ++ " missing name.")) ∧
    (u2.name.isSome → u2.site_role = none →
      UserRequest.add_req u2 = .error (u2.pyRepr ++ " must have site role populated.")) ∧
    (pyFalsy c.server_address = true →
      _add_connections_element e1 c = .error "Connection must have a server address") ∧
    ((pyFalsy cr.password || pyFalsy cr.name) = true →
      _add_credentials_element e2 cr =
        .error "Connection Credentials must have a name and password") := by
  refine ⟨?_, ?_, ?_, ?_⟩
  · intro h
    simp [UserRequest.add_req, UserRequest.add_user_element, h, Except.map]
  · intro h1 h2
    obtain ⟨nm, hnm⟩ := Option.isSome_iff_exists.mp h1
    simp [UserRequest.add_req, UserRequest.add_user_element, hnm, h2, Except.map]
  · intro h
    simp [_add_connections_element, h]
  · intro h
    simp [_add_credentials_element, h]

/-- Witness for C3 at concrete inputs. -/
theorem required_field_validation_witness :
    UserRequest.add_req {} = .error (({} : UserItem).pyRepr ++ " missing name.") ∧
    UserRequest.add_req { name := some "bob" } =
      .error (({ name := some "bob" } : UserItem).pyRepr ++ " must have site role populated.") ∧
    _add_connections_element (Element.mk "connections" [] []) {} =
      .error "Connection must have a server address" ∧
    _add_credentials_element (Element.mk "datasource" [] []) { name := some "creds" } =
      .error "Connection Credentials must have a name and password" := by
  obtain ⟨h1, h2, h3, h4⟩ := required_field_validation {} { name := some "bob" }
    (Element.mk "connections" [] []) (Element.mk "datasource" [] []) {} { name := some "creds" }
  exact ⟨h1 rfl, h2 rfl rfl, h3 rfl, h4 rfl⟩

/-- Claim C10: a user-update build whose item carries the exact site role
`"ServerAdministrator"` omits the `siteRole` attribute entirely, while any
other truthy site role is rendered verbatim as `siteRole`. -/
theorem server_admin_site_role_omitted (u : UserItem) (pw : Option String) :
    (u.site_role = some "ServerAdministrator" →
      (UserRequest.update_user_element u pw).getAttr "siteRole" = none) ∧
    (∀ r, u.site_role = some r → ¬ r = "" → ¬ r = "ServerAdministrator" →
      (UserRequest.update_user_element u pw).getAttr "siteRole" = some r) := by
  constructor
  · intro h
    simp [UserRequest.update_user_element, h, getAttr_setIfTruthy_ne, getAttr_base]
  · intro r h hr1 hr2
    simp [UserRequest.update_user_element, h, hr1, hr2, getAttr_setIfTruthy_ne, getAttr_setAttr]

/-- Witness for C10 at concrete inputs. -/
theorem server_admin_site_role_omitted_witness :
    (UserRequest.update_user_element { site_role := some "ServerAdministrator" } none).getAttr
      "siteRole" = none ∧
    (UserRequest.update_user_element { site_role := some "Explorer" } none).getAttr
      "siteRole" = some "Explorer" :=
  ⟨(server_admin_site_role_omitted { site_role := some "ServerAdministrator" } none).1 rfl,
   (server_admin_site_role_omitted { site_role := some "Explorer" } none).2 "Explorer" rfl
     (by decide) (by decide)⟩

/-- Claim C1, evaluated at the failing inputs.  Under the new (split) scheme
with only the legacy `flows_enabled` field set, the builder emits neither
split attribute (the claim requires both, carrying the legacy value) even
though it raises the removal warning; under the legacy scheme with only
`editing_flows_enabled = True` set, it emits `flowsEnabled="none"` — the
stringified Python `None` — instead of the boolean OR of the split values,
because the `or`-synthesis runs on already-stringified values and the string
`"none"` is truthy. -/
theorem site_flow_settings_failing_eval :
    ((SiteRequest.update_site_element { flows_enabled := some true } none).1.getAttr
        "editingFlowsEnabled" = none ∧
      (SiteRequest.update_site_element { flows_enabled := some true } none).1.getAttr
        "schedulingFlowsEnabled" = none ∧
      (SiteRequest.update_site_element { flows_enabled := some true } none).2 =
        ["FlowsEnabled has been removed and become two options: SchedulingFlowsEnabled and EditingFlowsEnabled"]) ∧
    (SiteRequest.update_site_element { editing_flows_enabled := some true }
        (some { new_flow_settings := false })).1.getAttr "flowsEnabled" = some "none" :=
  ⟨⟨rfl, rfl, rfl⟩, rfl⟩

/-- Claim C4, evaluated at the failing input.  The site-update builder renders
`data_alerts_enabled = True` as the attribute value `"True"` (the one `str(...)`
call in the file without `.lower()`), while e.g. the data-alert builder renders
its boolean as lowercase `"true"`. -/
theorem data_alerts_enabled_raw_eval :
    (SiteRequest.update_site_element { data_alerts_enabled := some true } none).1.getAttr
      "dataAlertsEnabled" = some "True" ∧
    (DataAlertRequest.update_alert_element { public := some true }).getAttr "public" =
      some "true" :=
  ⟨rfl, rfl⟩

/-- Claim C6: an optional field left unset produces no attribute for that
field, while the always-rendered certified flag appears in every output with
value `"true"` or `"false"` (data-source and database update builders). -/
theorem unset_optional_fields_omitted (d : DatasourceItem) (db : DatabaseItem) :
    (d.name = none → (DatasourceRequest.update_datasource_element d).getAttr "name" = none) ∧
    (d.certification_note = none →
      (DatasourceRequest.update_datasource_element d).getAttr "certificationNote" = none) ∧
    (d.encrypt_extracts = none →
      (DatasourceRequest.update_datasource_element d).getAttr "encryptExtracts" = none) ∧
    ((DatasourceRequest.update_datasource_element d).getAttr "isCertified" = some "true" ∨
      (DatasourceRequest.update_datasource_element d).getAttr "isCertified" = some "false") ∧
    (db.certification_note = none →
      (DatabaseRequest.update_database_element db).getAttr "certificationNote" = none) ∧
    (db.description = none →
      (DatabaseRequest.update_database_element db).getAttr "description" = none) ∧
    ((DatabaseRequest.update_database_element db).getAttr "isCertified" = some "true" ∨
      (DatabaseRequest.update_database_element db).getAttr "isCertified" = some "false") := by
  refine ⟨?_, ?_, ?_, ?_, ?_, ?_, ?_⟩
  · intro h
    simp [DatasourceRequest.update_datasource_element, h, getAttr_setIfSomeBoolLower_ne,
      getAttr_setIfTruthy_ne, getAttr_setAttr, getAttr_addChildIfTruthy, setIfTruthy_none,
      getAttr_base]
  · intro h
    simp [DatasourceRequest.update_datasource_element, h, getAttr_setIfSomeBoolLower_ne,
      getAttr_setIfTruthy_ne, getAttr_setAttr, getAttr_addChildIfTruthy, setIfTruthy_none,
      getAttr_base]
  · intro h
    simp [DatasourceRequest.update_datasource_element, h, setIfSomeBoolLower_none,
      getAttr_setIfTruthy_ne, getAttr_setAttr, getAttr_addChildIfTruthy, getAttr_base]
  · cases hcert : d.certified with
    | true =>
      left
      simp [DatasourceRequest.update_datasource_element, hcert, getAttr_setIfSomeBoolLower_ne,
        getAttr_setIfTruthy_ne, getAttr_setAttr, getAttr_addChildIfTruthy, pyLower_pyStrBool]
    | false =>
      right
      simp [DatasourceRequest.update_datasource_element, hcert, getAttr_setIfSomeBoolLower_ne,
        getAttr_setIfTruthy_ne, getAttr_setAttr, getAttr_addChildIfTruthy, pyLower_pyStrBool]
  · intro h
    simp [DatabaseRequest.update_database_element, h, getAttr_setIfTruthy_ne, setIfTruthy_none,
      getAttr_setAttr, getAttr_addChildIfTruthy, getAttr_base]
  · intro h
    simp [DatabaseRequest.update_database_element, h, getAttr_setIfTruthy_ne, setIfTruthy_none,
      getAttr_setAttr, getAttr_addChildIfTruthy, getAttr_base]
  · cases hcert : db.certified with
    | true =>
      left
      simp [DatabaseRequest.update_database_element, hcert, getAttr_setIfTruthy_ne,
        getAttr_setAttr, getAttr_addChildIfTruthy, pyLower_pyStrBool]
    | false =>
      right
      simp [DatabaseRequest.update_database_element, hcert, getAttr_setIfTruthy_ne,
        getAttr_setAttr, getAttr_addChildIfTruthy, pyLower_pyStrBool]

/-- Witness for C6 at concrete inputs (all optional fields unset). -/
theorem unset_optional_fields_omitted_witness :
    (DatasourceRequest.update_datasource_element {}).getAttr "name" = none ∧
    (DatasourceRequest.update_datasource_element {}).getAttr "certificationNote" = none ∧
    (DatasourceRequest.update_datasource_element {}).getAttr "encryptExtracts" = none ∧
    ((DatasourceRequest.update_datasource_element {}).getAttr "isCertified" = some "true" ∨
      (DatasourceRequest.update_datasource_element {}).getAttr "isCertified" = some "false") ∧
    (DatabaseRequest.update_database_element {}).getAttr "certificationNote" = none ∧
    (DatabaseRequest.update_database_element {}).getAttr "description" = none ∧
    ((DatabaseRequest.update_database_element {}).getAttr "isCertified" = some "true" ∨
      (DatabaseRequest.update_database_element {}).getAttr "isCertified" = some "false") := by
  obtain ⟨h1, h2, h3, h4, h5, h6, h7⟩ := unset_optional_fields_omitted {} {}
  exact ⟨h1 rfl, h2 rfl, h3 rfl, h4, h5 rfl, h6 rfl, h7⟩

/-- Counterexample to claim C8 as stated: the connection-update builder does
not copy the set string field `server_address = "MyServer"` verbatim — it
renders the lowercased `"myserver"`. -/
theorem connection_server_address_not_verbatim :
    (Connection.update_connection_element { server_address := some "MyServer" }).getAttr
      "serverAddress" = some "myserver" ∧
    some "myserver" ≠ some "MyServer" :=
  ⟨rfl, by decide⟩

/-- Claim C8, amended: string fields that are set are copied verbatim into
their attribute, except the fields the builder explicitly lower-cases — the
connection server address and the site custom-subscription email — which are
rendered lowercased.  Shown on the cited builders: connection user name and
password and the site time zone are verbatim; the server address and the
custom-subscription email are lowercased. -/
theorem string_fields_copy_rules (ci : ConnectionItem) (s : SiteItem) (p : Option Server) :
    (Connection.update_connection_element ci).getAttr "userName" = ci.username ∧
    (Connection.update_connection_element ci).getAttr "password" = ci.password ∧
    (Connection.update_connection_element ci).getAttr "serverAddress" =
      ci.server_address.map pyLower ∧
    (SiteRequest.update_site_element s p).1.getAttr "timeZone" = s.time_zone ∧
    (SiteRequest.update_site_element s p).1.getAttr "customSubscriptionEmail" =
      s.custom_subscription_email.map pyLower := by
  refine ⟨?_, ?_, ?_, ?_, ?_⟩
  · rcases hc : ci.username with _ | v <;>
      simp [Connection.update_connection_element, hc, getAttr_setIfSomeBoolLower_ne,
        getAttr_setIfSomeStr_ne, getAttr_setIfSomeStrLower_ne, setIfSomeStr_none,
        setIfSomeStr_some, getAttr_setAttr, getAttr_base]
  · rcases hc : ci.password with _ | v <;>
      simp [Connection.update_connection_element, hc, getAttr_setIfSomeBoolLower_ne,
        getAttr_setIfSomeStr_ne, getAttr_setIfSomeStrLower_ne, setIfSomeStr_none,
        setIfSomeStr_some, getAttr_setAttr, getAttr_base]
  · rcases hc : ci.server_address with _ | v <;>
      simp [Connection.update_connection_element, hc, getAttr_setIfSomeBoolLower_ne,
        getAttr_setIfSomeStr_ne, setIfSomeStrLower_none, setIfSomeStrLower_some,
        getAttr_setAttr, getAttr_base]
  · rcases hc : s.time_zone with _ | v <;>
      simp [SiteRequest.update_site_element, hc, getAttr_setIfSomeInt_ne,
        getAttr_setIfSomeBoolLower_ne, getAttr_setIfSomeStr_ne, getAttr_setIfSomeStrLower_ne,
        getAttr_setIfSomeIntLower_ne, getAttr_setIfSomeBool_ne, getAttr_setIfTruthyInt_ne,
        getAttr_setIfTruthy_ne, getAttr_svfa_ne, setIfSomeStr_none, setIfSomeStr_some,
        getAttr_setAttr, getAttr_base]
  · rcases hc : s.custom_subscription_email with _ | v <;>
      simp [SiteRequest.update_site_element, hc, getAttr_setIfSomeInt_ne,
        getAttr_setIfSomeBoolLower_ne, getAttr_setIfSomeStr_ne, getAttr_setIfSomeStrLower_ne,
        getAttr_setIfSomeIntLower_ne, getAttr_setIfSomeBool_ne, getAttr_setIfTruthyInt_ne,
        getAttr_setIfTruthy_ne, getAttr_svfa_ne, setIfSomeStrLower_none, setIfSomeStrLower_some,
        getAttr_setAttr, getAttr_base]

/-! ## Multipart content-type override -/

theorem breakAtSemi_prefix (pre post : List Char) (h : ';' ∉ pre) :
    breakAtSemi (pre ++ ';' :: post) = (pre, ';' :: post) := by
  induction pre with
  | nil => simp [breakAtSemi]
  | cons c cs ih =>
    have hc : ¬ c = ';' := by
      intro hcc
      exact h (by simp [hcc])
    have hcs : ';' ∉ cs := by
      intro hm
      exact h (List.mem_cons_of_mem c hm)
    simp [breakAtSemi, hc, ih hcs]

theorem pyPartitionSemi_formdata (b : String) :
    pyPartitionSemi ("multipart/form-data; boundary=" ++ b) =
      ("multipart/form-data", ";", " boundary=" ++ b) := by
  cases b with
  | mk l =>
    have hd : ("multipart/form-data; boundary=" ++ String.mk l).data
        = "multipart/form-data".data ++ (';' :: (" boundary=".data ++ l)) := rfl
    unfold pyPartitionSemi
    rw [hd, breakAtSemi_prefix "multipart/form-data".data (" boundary=".data ++ l) (by decide)]
    rfl

theorem mixed_join (b : String) :
    "multipart/mixed" ++ ";" ++ (" boundary=" ++ b) = "multipart/mixed; boundary=" ++ b := by
  cases b with
  | mk l => rfl

/-- The multipart encoder renders the parts in order behind a fresh boundary,
and the content type it returns is exactly `multipart/mixed` with that
boundary parameter, whatever the underlying primitive's default subtype. -/
theorem add_multipart_spec (parts : List RequestField) (b : String) :
    _add_multipart parts b = (renderBody parts b, "multipart/mixed; boundary=" ++ b) := by
  simp only [_add_multipart, encode_multipart_formdata, pyPartitionSemi_formdata]
  rw [mixed_join]

/-- Claim C5: a multipart publish encoding yields the content type
`multipart/mixed; boundary=<boundary>` and a body of exactly two parts in
order — the metadata part, named `request_payload` across publish operations,
with an empty filename and the serialized XML, then the binary part with the
caller's filename and octet-stream content type. -/
theorem multipart_publish_format (d : DatasourceItem) (w : WorkbookItem)
    (cc : Option ConnectionCredentials) (conns : Option (List ConnectionItem))
    (hv : Option (List String)) (fn fc b xmlD xmlW : String) (warns : List String) :
    (DatasourceRequest._generate_xml d cc conns = .ok xmlD →
      DatasourceRequest.publish_req d fn fc cc conns b =
        .ok (renderBody
            [{ name := "request_payload", filename := "", data := xmlD,
               content_type := "text/xml" },
             { name := "tableau_datasource", filename := fn, data := fc,
               content_type := "application/octet-stream" }] b,
          "multipart/mixed; boundary=" ++ b)) ∧
    (WorkbookRequest._generate_xml w cc conns hv = .ok (xmlW, warns) →
      WorkbookRequest.publish_req w fn fc cc conns hv b =
        .ok ((renderBody
            [{ name := "request_payload", filename := "", data := xmlW,
               content_type := "text/xml" },
             { name := "tableau_workbook", filename := fn, data := fc,
               content_type := "application/octet-stream" }] b,
          "multipart/mixed; boundary=" ++ b), warns)) := by
  constructor
  · intro h
    simp only [DatasourceRequest.publish_req, h, add_multipart_spec]
  · intro h
    simp only [WorkbookRequest.publish_req, h, add_multipart_spec]

/-- A data source whose required publish fields are populated. -/
def sampleDatasource : DatasourceItem := { name := some "ds", project_id := some "proj" }

/-- The serialized metadata document `sampleDatasource` publishes. -/
def sampleDatasourceXml : String :=
  serializeElem (Element.mk "tsRequest" []
    [Element.mk "datasource" [("name", "ds")] [Element.mk "project" [("id", "proj")] []]])

/-- A workbook whose required publish fields are populated. -/
def sampleWorkbook : WorkbookItem := { name := some "wb", project_id := some "proj" }

/-- The serialized metadata document `sampleWorkbook` publishes. -/
def sampleWorkbookXml : String :=
  serializeElem (Element.mk "tsRequest" []
    [Element.mk "workbook" [("name", "wb")] [Element.mk "project" [("id", "proj")] []]])

/-- Witness for C5 at concrete inputs. -/
theorem multipart_publish_format_witness :
    DatasourceRequest.publish_req sampleDatasource "file.bin" "DATA" none none "bnd" =
      .ok (renderBody
          [{ name := "request_payload", filename := "", data := sampleDatasourceXml,
             content_type := "text/xml" },
           { name := "tableau_datasource", filename := "file.bin", data := "DATA",
             content_type := "application/octet-stream" }] "bnd",
        "multipart/mixed; boundary=" ++ "bnd") ∧
    WorkbookRequest.publish_req sampleWorkbook "file.bin" "DATA" none none none "bnd" =
      .ok ((renderBody
          [{ name := "request_payload", filename := "", data := sampleWorkbookXml,
             content_type := "text/xml" },
           { name := "tableau_workbook", filename := "file.bin", data := "DATA",
             content_type := "application/octet-stream" }] "bnd",
        "multipart/mixed; boundary=" ++ "bnd"), []) := by
  obtain ⟨h1, h2⟩ := multipart_publish_format sampleDatasource sampleWorkbook none none none
    "file.bin" "DATA" "bnd" sampleDatasourceXml sampleWorkbookXml []
  exact ⟨h1 rfl, h2 rfl⟩

/-- Claim C9: two publish encodings of the same entity with different
boundaries render the same parts list — in particular byte-identical
metadata-part content, the head part carrying exactly the serialized XML —
so the boundary is the only difference between the two bodies. -/
theorem publish_metadata_deterministic (d : DatasourceItem)
    (cc : Option ConnectionCredentials) (conns : Option (List ConnectionItem))
    (fn fc b1 b2 xml : String)
    (h : DatasourceRequest._generate_xml d cc conns = .ok xml) :
    ∃ parts : List RequestField,
      parts.head?.map RequestField.data = some xml ∧
      DatasourceRequest.publish_req d fn fc cc conns b1 =
        .ok (renderBody parts b1, "multipart/mixed; boundary=" ++ b1) ∧
      DatasourceRequest.publish_req d fn fc cc conns b2 =
        .ok (renderBody parts b2, "multipart/mixed; boundary=" ++ b2) := by
  refine ⟨[{ name := "request_payload", filename := "", data := xml, content_type := "text/xml" },
    { name := "tableau_datasource", filename := fn, data := fc,
      content_type := "application/octet-stream" }], rfl, ?_, ?_⟩ <;>
    simp only [DatasourceRequest.publish_req, h, add_multipart_spec]

/-- Witness for C9 at concrete inputs. -/
theorem publish_metadata_deterministic_witness :
    ∃ parts : List RequestField,
      parts.head?.map RequestField.data = some sampleDatasourceXml ∧
      DatasourceRequest.publish_req sampleDatasource "file.tds" "DATA" none none "b1" =
        .ok (renderBody parts "b1", "multipart/mixed; boundary=" ++ "b1") ∧
      DatasourceRequest.publish_req sampleDatasource "file.tds" "DATA" none none "b2" =
        .ok (renderBody parts "b2", "multipart/mixed; boundary=" ++ "b2") :=
  publish_metadata_deterministic sampleDatasource none none "file.tds" "DATA" "b1" "b2"
    sampleDatasourceXml rfl

/-- Claim C7: a build call supplied with a deprecated parameter still
completes: the group default-site-role override is copied into the modern
`minimum_site_role` field and rendered, the workbook `hidden_views` argument
is copied into the item's field when that field is unset and every view is
rendered, and in both cases the deprecation warning is raised — the value is
neither dropped nor fatal. -/
theorem deprecated_params_compat (g : GroupItem) (nm r : String) (w : WorkbookItem)
    (vs : List String) :
    (g.name = some nm → g.domain_name = none → g.minimum_site_role = none →
      GroupRequest.update_req_xml g (some r) =
        .ok (Element.mk "tsRequest" []
            [Element.mk "group" [("name", nm), ("minimumSiteRole", r)] []],
          ["RequestFactory.Group.update_req(...default_site_role=\"\") is deprecated, please set the minimum_site_role field of GroupItem"])) ∧
    (w.hidden_views = none → w.show_tabs = false →
      WorkbookRequest._generate_xml_tree w none none (some vs) =
        .ok (Element.mk "tsRequest" []
            [Element.mk "workbook" [("name", attrStr w.name)]
              [Element.mk "project" [("id", pyStrOptStr w.project_id)] [],
               Element.mk "views" []
                 (vs.map fun v => Element.mk "view" [("name", v), ("hidden", "true")] [])]],
          ["the hidden_views parameter should now be set on the workbook directly"])) := by
  constructor
  · intro h1 h2 h3
    simp [GroupRequest.update_req_xml, h1, h2, h3, setIfSomeStr_some, Element.setAttr,
      setAttrList]
  · intro h1 h2
    simp [WorkbookRequest._generate_xml_tree, h1, h2, Element.setAttr, setAttrList,
      Element.addChild, foldl_hiddenview]

/-- Witness for C7 at concrete inputs. -/
theorem deprecated_params_compat_witness :
    GroupRequest.update_req_xml { name := some "grp" } (some "Viewer") =
      .ok (Element.mk "tsRequest" []
          [Element.mk "group" [("name", "grp"), ("minimumSiteRole", "Viewer")] []],
        ["RequestFactory.Group.update_req(...default_site_role=\"\") is deprecated, please set the minimum_site_role field of GroupItem"]) ∧
    WorkbookRequest._generate_xml_tree { name := some "wb" } none none (some ["v1"]) =
      .ok (Element.mk "tsRequest" []
          [Element.mk "workbook" [("name", "wb")]
            [Element.mk "project" [("id", "None")] [],
             Element.mk "views" [] [Element.mk "view" [("name", "v1"), ("hidden", "true")] []]]],
        ["the hidden_views parameter should now be set on the workbook directly"]) := by
  obtain ⟨h1, h2⟩ := deprecated_params_compat { name := some "grp" } "grp" "Viewer"
    { name := some "wb" } ["v1"]
  exact ⟨h1 rfl rfl rfl, h2 rfl rfl⟩
